import Mathlib

/-!
Shallow embedding of `calico/openstack/t_etcd.py` (the etcd transport of the
Calico/OpenStack plugin) and proofs about the properties its specification
states.  Python strings are `String` except for profile identifiers and
security-group ids, which the join/split machinery manipulates character by
character and which are therefore embedded as `List Char` (`PyStr`).
Python `None`-able values are `Option`s; a dict field that may be absent is an
`Option` field that is `none` exactly when the key is absent.
-/

namespace Felix

/-- Profile identifiers and security-group ids as character lists (Python `str`
viewed through `'_'.join` / `.split('_')`). -/
abbrev PyStr := List Char

/-- A Python value that can sit in the `protocol` field of a Neutron rule:
`None` is represented by wrapping in `Option`; a present value is either a
number (the `-1` sentinel) or a string such as `'icmp'` or `'tcp'`. -/
inductive ProtoVal where
  | num (n : Int)
  | str (s : String)
deriving DecidableEq

/-- A Neutron security-group rule dict as `_neutron_rule_to_etcd_rule` reads it
(fields `direction`, `ethertype`, `protocol`, `remote_group_id`,
`remote_ip_prefix`, `port_range_min`, `port_range_max`).
`remote_ip_pfx` embeds the Python key `remote_ip_prefix`. -/
structure NeutronRule where
  direction : String
  ethertype : String
  protocol : Option ProtoVal
  remote_group_id : Option String
  remote_ip_pfx : Option String
  port_range_min : Option Int
  port_range_max : Option Int
deriving DecidableEq

/-- One entry of a `dst_ports` list: the code appends either a bare number
(line 305) or a range string (lines 302, 307-308). -/
inductive PortEntry where
  | num (n : Int)
  | str (s : String)
deriving DecidableEq

/-- The etcd rule dict built by `_neutron_rule_to_etcd_rule`.  `ip_version` is
always set (line 269); every other key is set conditionally, so it is an
`Option` that is `none` exactly when the code leaves the key out. -/
structure EtcdRule where
  ip_version : Nat
  protocol : Option ProtoVal := none
  icmp_type : Option Int := none
  icmp_code : Option Int := none
  src_tag : Option String := none
  src_net : Option String := none
  dst_tag : Option String := none
  dst_net : Option String := none
  dst_ports : Option (List PortEntry) := none
deriving DecidableEq

/-- Python truthiness of an optional string: `None` and `''` are falsy. -/
def truthy : Option String → Bool
  | none => false
  | some s => s ≠ ""

/-- Python `'%s' % v` for an optional int: `None` renders as `"None"`,
an int as its decimal form. -/
def pyFormatOptInt : Option Int → String
  | none => "None"
  | some n => toString n

/-- Line 269-270: `{'IPv4': 4, 'IPv6': 6}[ethertype]`; any other key raises
`KeyError`, embedded as `none`. -/
def ipVersionOf (ethertype : String) : Option Nat :=
  if ethertype = "IPv4" then some 4
  else if ethertype = "IPv6" then some 6
  else none

/-- Lines 272-278: the `protocol` key of the etcd rule.  `None` or `-1` leaves
the key unset; `'icmp'` is mapped through `{'IPv4': 'icmp', 'IPv6': 'icmpv6'}`
(only evaluated after line 269 has already validated the ethertype); anything
else passes through. -/
def protoField (rule : NeutronRule) : Option ProtoVal :=
  if rule.protocol = none ∨ rule.protocol = some (ProtoVal.num (-1)) then none
  else if rule.protocol = some (ProtoVal.str "icmp") then
    some (ProtoVal.str (if rule.ethertype = "IPv4" then "icmp" else "icmpv6"))
  else rule.protocol

/-- Lines 284-287: `net = rule['remote_ip_prefix']`, replaced by the
family-appropriate any-address CIDR when neither `net` nor
`rule['remote_group_id']` is truthy. -/
def netField (rule : NeutronRule) : Option String :=
  if truthy rule.remote_ip_pfx || truthy rule.remote_group_id then
    rule.remote_ip_pfx
  else
    some (if rule.ethertype = "IPv4" then "0.0.0.0/0" else "::/0")

/-- Lines 289-297: for protocol `'icmp'`, the ICMP type/code are taken from
`port_range_min`/`port_range_max`, each only when it is neither `None` nor
`-1`.  For any other protocol both keys stay unset. -/
def icmpFieldsOf (rule : NeutronRule) : Option Int × Option Int :=
  if rule.protocol = some (ProtoVal.str "icmp") then
    ( match rule.port_range_min with
      | some t => if t = -1 then none else some t
      | none => none,
      match rule.port_range_max with
      | some c => if c = -1 then none else some c
      | none => none )
  else (none, none)

/-- Lines 288, 298-308: `port_spec`.  It stays `None` for protocol `'icmp'`
(only the else-branch of line 298 assigns it); otherwise: a `port_range_min`
of `-1` gives `['1:65535']`; equal (Python `==`, so `None == None` counts)
bounds give `[port_range_min]` when present and nothing when absent; any other
combination gives the single `'%s:%s'` range string. -/
def portSpec (rule : NeutronRule) : Option (List PortEntry) :=
  if rule.protocol = some (ProtoVal.str "icmp") then none
  else if rule.port_range_min = some (-1) then some [PortEntry.str "1:65535"]
  else if rule.port_range_min = rule.port_range_max then
    match rule.port_range_min with
    | some n => some [PortEntry.num n]
    | none => none
  else
    some [PortEntry.str
      (pyFormatOptInt rule.port_range_min ++ ":" ++ pyFormatOptInt rule.port_range_max)]

/-- Lines 261-329: `_neutron_rule_to_etcd_rule(rule)`.  Returns `none` when the
ethertype mapping on line 269 raises `KeyError`.  Lines 312-327 place the
selector in the `src_*` fields for `'ingress'` and in the `dst_*` fields
otherwise; `if v is not None: d[k] = v` is embedded as assigning the `Option`
directly; `dst_ports` receives `port_spec` in both branches. -/
def _neutron_rule_to_etcd_rule (rule : NeutronRule) : Option EtcdRule :=
  match ipVersionOf rule.ethertype with
  | none => none
  | some v =>
    let ity := (icmpFieldsOf rule).1
    let icd := (icmpFieldsOf rule).2
    if rule.direction = "ingress" then
      some { ip_version := v, protocol := protoField rule,
             icmp_type := ity, icmp_code := icd,
             src_tag := rule.remote_group_id, src_net := netField rule,
             dst_ports := portSpec rule }
    else
      some { ip_version := v, protocol := protoField rule,
             icmp_type := ity, icmp_code := icd,
             dst_tag := rule.remote_group_id, dst_net := netField rule,
             dst_ports := portSpec rule }

/-- Lines 136-137: `port_profile_id` is `'_'.join(port['security_groups'])`. -/
def port_profile_id (security_groups : List PyStr) : PyStr :=
  List.intercalate ['_'] security_groups

/-- Lines 180-181: `profile_tags` is `profile_id.split('_')`. -/
def profile_tags (profile_id : PyStr) : List PyStr :=
  profile_id.splitOn '_'

/-- A Neutron security group as `security_group_updated` caches it: its `id`
and its `security_group_rules` list. -/
structure SecurityGroup where
  id : PyStr
  security_group_rules : List NeutronRule
deriving DecidableEq

/-- The `self.sgs` dict, embedded as an association list read through
`cacheLookup` (dict semantics are pointwise, so only the lookup behaviour
matters). -/
abbrev SgCache := List (PyStr × SecurityGroup)

/-- `self.sgs[sgid]`, returning `none` where Python raises `KeyError`. -/
def cacheLookup : SgCache → PyStr → Option SecurityGroup
  | [], _ => none
  | e :: rest, k => if e.1 = k then some e.2 else cacheLookup rest k

/-- Removal of a key from the association list (dict semantics: at most one
binding per key is ever observable through `cacheLookup`). -/
def cacheRemove : SgCache → PyStr → SgCache
  | [], _ => []
  | e :: rest, k => if e.1 = k then cacheRemove rest k else e :: cacheRemove rest k

/-- Line 218: `self.sgs[sg['id']] = sg` — dict assignment replaces the entry
for that key wholesale and leaves every other key unchanged. -/
def cacheUpdate (c : SgCache) (k : PyStr) (v : SecurityGroup) : SgCache :=
  (k, v) :: cacheRemove c k

/-- The constant of `eventlet.sleep(0.2)` on line 167, in milliseconds. -/
def RETRY_SLEEP_MS : Nat := 200

/-- Outcome of the lines 152-167 retry loop: the value found, or exhaustion,
together with how many lookup attempts were made and how many sleeps separated
them. -/
inductive RetryOutcome (α : Type) where
  | found (v : α) (attempts : Nat) (sleeps : Nat)
  | exhausted (attempts : Nat) (sleeps : Nat)
deriving DecidableEq

/-- Lines 152-167: `rules = None; retries = 20; while rules is None: try ...
except KeyError: retries -= 1; if not retries: raise; eventlet.sleep(0.2)`.
`lookup k` is what `self.sgs[sgid]` yields at the `k`-th attempt (the cache is
shared with other green threads and can gain the entry between sleeps).  The
`retries = 0` branch is unreachable from the code's initial value 20 (Python
would decrement past zero and loop forever); it is mapped to exhaustion so the
function is total. -/
def retryLookup {α : Type} (lookup : Nat → Option α) :
    Nat → Nat → Nat → RetryOutcome α
  | 0, attempt, sleeps =>
    (match lookup attempt with
     | some v => RetryOutcome.found v (attempt + 1) sleeps
     | none => RetryOutcome.exhausted (attempt + 1) sleeps)
  | 1, attempt, sleeps =>
    (match lookup attempt with
     | some v => RetryOutcome.found v (attempt + 1) sleeps
     | none => RetryOutcome.exhausted (attempt + 1) sleeps)
  | r + 2, attempt, sleeps =>
    (match lookup attempt with
     | some v => RetryOutcome.found v (attempt + 1) sleeps
     | none => retryLookup lookup (r + 1) (attempt + 1) (sleeps + 1))

/-- Errors a method can raise: the re-raised `KeyError` of line 164 for a
security group that never turned up, the `KeyError` of the line 269 ethertype
mapping, and Python's `AttributeError` for an instance attribute that was
never assigned. -/
inductive PyErr where
  | keyError (sgid : PyStr)
  | etherKeyError
  | attributeError (name : String)
deriving DecidableEq

/-- Lines 170-176: translate each rule and append it to the inbound list when
its direction is `'ingress'`, to the outbound list otherwise; a `KeyError`
from the translation propagates. -/
def routeRules : List NeutronRule → List EtcdRule → List EtcdRule →
    Except PyErr (List EtcdRule × List EtcdRule)
  | [], inb, outb => Except.ok (inb, outb)
  | rule :: rest, inb, outb =>
    match _neutron_rule_to_etcd_rule rule with
    | none => Except.error PyErr.etherKeyError
    | some e =>
      if rule.direction = "ingress" then routeRules rest (inb ++ [e]) outb
      else routeRules rest inb (outb ++ [e])

/-- Lines 148-176: the body of `profile_rules`' outer loop.  `sgsAt t` is the
contents of `self.sgs` at the `t`-th observation of the cache (observations
are numbered globally across the constituent groups); each group is fetched
through the lines 152-167 retry loop with `retries = 20`. -/
def profileRulesLoop (sgsAt : Nat → SgCache) :
    List PyStr → Nat → List EtcdRule → List EtcdRule →
    Except PyErr (List EtcdRule × List EtcdRule × Nat)
  | [], step, inb, outb => Except.ok (inb, outb, step)
  | sgid :: rest, step, inb, outb =>
    match retryLookup
        (fun k => (cacheLookup (sgsAt (step + k)) sgid).map
          (fun sg => sg.security_group_rules)) 20 0 0 with
    | RetryOutcome.found rules attempts _ =>
      (match routeRules rules inb outb with
       | Except.error e => Except.error e
       | Except.ok (inb2, outb2) =>
         profileRulesLoop sgsAt rest (step + attempts) inb2 outb2)
    | RetryOutcome.exhausted _ _ => Except.error (PyErr.keyError sgid)

/-- The value of `profile_rules`: `{'inbound_rules': ..., 'outbound_rules': ...}`
(line 178). -/
structure ProfileRulesDoc where
  inbound_rules : List EtcdRule
  outbound_rules : List EtcdRule
deriving DecidableEq

/-- Lines 145-178: `profile_rules(profile_id)` over the evolving cache
contents `sgsAt`.  Raising is embedded as `Except.error`. -/
def profile_rules (sgsAt : Nat → SgCache) (profile_id : PyStr) :
    Except PyErr ProfileRulesDoc :=
  match profileRulesLoop sgsAt (profile_tags profile_id) 0 [] [] with
  | Except.error e => Except.error e
  | Except.ok (inb, outb, _) => Except.ok ⟨inb, outb⟩

/-- An etcd key as a path of components (the spec describes keys as paths with
components separated by `/`). -/
abbrev EtcdKey := List String

/-- Modelled from the spec: `key_for_endpoint` comes from
`calico.datamodel_v1`, which is not among this repository's sources.  The spec
gives the endpoint document key as
`<host-dir>/<hostname>/<fixed "openstack" marker>/endpoint/<endpoint-id>`,
derived from host id, namespace marker, device id and port id. -/
def key_for_endpoint (hostname orchestrator workload endpoint_id : String) :
    EtcdKey :=
  ["host-dir", hostname, orchestrator, workload, "endpoint", endpoint_id]

/-- Modelled from the spec: `key_for_profile_rules` from `calico.datamodel_v1`
(not in the sources); the spec gives `<profile-dir>/<profile-id>/rules`. -/
def key_for_profile_rules (profile_id : PyStr) : EtcdKey :=
  ["profile-dir", profile_id.asString, "rules"]

/-- Modelled from the spec: `key_for_profile_tags` from `calico.datamodel_v1`
(not in the sources); the spec gives `<profile-dir>/<profile-id>/tags`. -/
def key_for_profile_tags (profile_id : PyStr) : EtcdKey :=
  ["profile-dir", profile_id.asString, "tags"]

/-- Modelled from the spec: `key_for_config` from `calico.datamodel_v1`
(not in the sources); the spec gives `<config-dir>/<name>`. -/
def key_for_config (name : String) : EtcdKey :=
  ["config-dir", name]

/-- Modelled from the spec: `READY_KEY` from `calico.datamodel_v1` (not in the
sources); the spec calls it "a top-level readiness key". -/
def READY_KEY : EtcdKey := ["Ready"]

/-- One entry of `port['fixed_ips']`: an address and an optional gateway. -/
structure FixedIp where
  ip_address : String
  gateway : Option String
deriving DecidableEq

/-- A Neutron port dict as this file reads it.  `binding_host_id` embeds the
Python key `binding:host_id`. -/
structure Port where
  id : String
  device_id : String
  binding_host_id : String
  admin_state_up : Bool
  interface_name : String
  mac_address : String
  security_groups : List PyStr
  fixed_ips : List FixedIp
deriving DecidableEq

/-- Lines 103-107: `port_etcd_key(port)`. -/
def port_etcd_key (port : Port) : EtcdKey :=
  key_for_endpoint port.binding_host_id "openstack" port.device_id port.id

/-- The endpoint document built by `port_etcd_data` (lines 109-134): the four
unconditional keys, the two gateway keys that are set only when some fixed ip
carries a gateway, and the two net lists. -/
structure EndpointData where
  state : String
  name : String
  mac : String
  profile_id : PyStr
  ipv4_gateway : Option String := none
  ipv6_gateway : Option String := none
  ipv4_nets : List String := []
  ipv6_nets : List String := []
deriving DecidableEq

/-- Lines 121-129: the loop over `port['fixed_ips']`, appending `/128`-suffixed
addresses containing `':'` to the v6 list and `/32`-suffixed ones to the v4
list, and letting the last gateway of each family win. -/
def collectIps : List FixedIp → EndpointData → List String → List String →
    EndpointData
  | [], data, v4, v6 => { data with ipv4_nets := v4, ipv6_nets := v6 }
  | ip :: rest, data, v4, v6 =>
    if ip.ip_address.contains ':' then
      let data2 := match ip.gateway with
                   | some g => { data with ipv6_gateway := some g }
                   | none => data
      collectIps rest data2 v4 (v6 ++ [ip.ip_address ++ "/128"])
    else
      let data2 := match ip.gateway with
                   | some g => { data with ipv4_gateway := some g }
                   | none => data
      collectIps rest data2 (v4 ++ [ip.ip_address ++ "/32"]) v6

/-- Lines 109-134: `port_etcd_data(port)`. -/
def port_etcd_data (port : Port) : EndpointData :=
  collectIps port.fixed_ips
    { state := if port.admin_state_up then "active" else "inactive",
      name := port.interface_name,
      mac := port.mac_address,
      profile_id := port_profile_id port.security_groups }
    [] []

/-- The etcd store as `endpoint_deleted` sees it: the set of keys that exist. -/
structure EtcdStore where
  keys : List EtcdKey
deriving DecidableEq

/-- `self.client.delete(key)`: removes the key, or raises `EtcdKeyNotFound`
(embedded as `Except.error`) when it is absent. -/
def clientDelete (store : EtcdStore) (key : EtcdKey) : Except Unit EtcdStore :=
  if key ∈ store.keys then Except.ok ⟨store.keys.filter (fun k => ¬ k = key)⟩
  else Except.error ()

/-- What a run of `endpoint_deleted` did: the resulting store, the delete
calls it issued and the write calls it issued.  The method returning a
`DeleteTrace` (rather than an `Except`) embeds that it raises nothing. -/
structure DeleteTrace where
  store : EtcdStore
  deletesIssued : List EtcdKey
  writesIssued : List EtcdKey
deriving DecidableEq

/-- Lines 202-213: `endpoint_deleted(port)` deletes the endpoint's key and
swallows `etcd.EtcdKeyNotFound` (lines 211-213), leaving the store as it was. -/
def endpoint_deleted (store : EtcdStore) (port : Port) : DeleteTrace :=
  let key := port_etcd_key port
  match clientDelete store key with
  | Except.ok store2 => ⟨store2, [key], []⟩
  | Except.error _ => ⟨store, [key], []⟩

/-- Lines 234-259: `provide_felix_config()`.  Both reads sit in one `try`
block, so when the first raises `EtcdKeyNotFound` the second never runs and
both locals keep their `None`; each value is then written only when it
differs from the wanted one.  The result is the list of writes performed. -/
def provide_felix_config (store : EtcdKey → Option String) :
    List (EtcdKey × String) :=
  let iface_pfx_key := key_for_config "InterfacePrefix"
  let pfx := store iface_pfx_key
  let ready := match pfx with
               | none => none
               | some _ => store READY_KEY
  (if pfx = some "tap" then [] else [(iface_pfx_key, "tap")]) ++
  (if ready = some "true" then [] else [(READY_KEY, "true")])

/-- One call of `write_profile_to_etcd` (lines 139-143): the profile id, the
rules document written under `key_for_profile_rules` and the tag list written
under `key_for_profile_tags`. -/
structure ProfileWrite where
  profile_id : PyStr
  rules : ProfileRulesDoc
  tags : List PyStr
deriving DecidableEq

/-- Lines 139-143: `write_profile_to_etcd(profile_id)` against a cache whose
contents stay `sgs` for the duration of the call; an exception from
`profile_rules` propagates. -/
def write_profile_to_etcd (sgs : SgCache) (profile_id : PyStr) :
    Except PyErr ProfileWrite :=
  match profile_rules (fun _ => sgs) profile_id with
  | Except.error e => Except.error e
  | Except.ok doc => Except.ok ⟨profile_id, doc, profile_tags profile_id⟩

/-- Lines 231-232: the loop writing every profile of `profiles_to_rewrite`;
an exception aborts the loop and propagates. -/
def writeProfiles (sgs : SgCache) : List PyStr → Except PyErr (List ProfileWrite)
  | [] => Except.ok []
  | pid :: rest =>
    match write_profile_to_etcd sgs pid with
    | Except.error e => Except.error e
    | Except.ok w =>
      match writeProfiles sgs rest with
      | Except.error e => Except.error e
      | Except.ok ws => Except.ok (w :: ws)

/-- A `CalicoTransportEtcd` instance as a record of its attributes.  A field
that is `none` is an attribute the object does not have: reading it raises
`AttributeError`.  `__init__` (lines 61-73) assigns only `self.driver` and
`self.client` (and spawns the resync thread); `self.sgs`,
`self._sgs_semaphore`, `self.needed_profiles` and `self.profile_semaphore`
are never assigned anywhere in the file, only read.  The two semaphores carry
no data (locks are no-ops in this sequential embedding). -/
structure CalicoTransportEtcd where
  driver : Option Unit := none
  client : Option Unit := none
  sgs : Option SgCache := none
  sgs_semaphore : Option Unit := none
  needed_profiles : Option (List PyStr) := none
  profile_semaphore : Option Unit := none
deriving DecidableEq

/-- Lines 61-73: `__init__` — the freshly constructed instance. -/
def CalicoTransportEtcd.init : CalicoTransportEtcd :=
  { driver := some (), client := some () }

/-- Reading `self.<name>`: `AttributeError` when the attribute was never
assigned. -/
def getAttr {α : Type} (name : String) : Option α → Except PyErr α
  | some v => Except.ok v
  | none => Except.error (PyErr.attributeError name)

/-- Lines 145-178 at the attribute level: every iteration of the loop enters
`with self._sgs_semaphore` (line 156) and indexes `self.sgs` (line 157), so a
missing attribute raises `AttributeError` on the first iteration — the
`except KeyError` clause does not catch it — and `profile_tags` never returns
an empty list, so the loop always runs.  With both attributes present the
call is `profile_rules` over the cache the instance holds. -/
def CalicoTransportEtcd.profile_rules_m (self : CalicoTransportEtcd)
    (profile_id : PyStr) : Except PyErr ProfileRulesDoc :=
  if (profile_tags profile_id).isEmpty then Except.ok ⟨[], []⟩
  else
    match getAttr "_sgs_semaphore" self.sgs_semaphore with
    | Except.error e => Except.error e
    | Except.ok _ =>
      match getAttr "sgs" self.sgs with
      | Except.error e => Except.error e
      | Except.ok sgs => profile_rules (fun _ => sgs) profile_id

/-- Lines 215-232: `security_group_updated(sg)`.  Under `self._sgs_semaphore`
the cache entry for `sg['id']` is replaced wholesale (line 218); under
`self.profile_semaphore` the needed profiles whose tags contain the id are
collected (lines 225-230); outside the locks each collected profile is
rewritten against the updated cache (lines 231-232).  The successful result
is the updated instance and the profile writes performed. -/
def CalicoTransportEtcd.security_group_updated_m (self : CalicoTransportEtcd)
    (sg : SecurityGroup) :
    Except PyErr (CalicoTransportEtcd × List ProfileWrite) :=
  match getAttr "_sgs_semaphore" self.sgs_semaphore with
  | Except.error e => Except.error e
  | Except.ok _ =>
    match getAttr "sgs" self.sgs with
    | Except.error e => Except.error e
    | Except.ok sgs =>
      let sgs2 := cacheUpdate sgs sg.id sg
      match getAttr "profile_semaphore" self.profile_semaphore with
      | Except.error e => Except.error e
      | Except.ok _ =>
        match getAttr "needed_profiles" self.needed_profiles with
        | Except.error e => Except.error e
        | Except.ok needed =>
          let toRewrite := needed.filter (fun pid => sg.id ∈ profile_tags pid)
          match writeProfiles sgs2 toRewrite with
          | Except.error e => Except.error e
          | Except.ok writes =>
            Except.ok ({ self with sgs := some sgs2 }, writes)

/-! ## Helper lemmas -/

/-- The shape of a successful translation: the selector lands on the `src`
side for `'ingress'` and on the `dst` side otherwise, and the ports always
land in `dst_ports`. -/
theorem translate_shape (r : NeutronRule) (e : EtcdRule)
    (h : _neutron_rule_to_etcd_rule r = some e) :
    (r.direction = "ingress" →
      e.src_tag = r.remote_group_id ∧ e.src_net = netField r ∧
      e.dst_tag = none ∧ e.dst_net = none ∧ e.dst_ports = portSpec r) ∧
    (r.direction ≠ "ingress" →
      e.dst_tag = r.remote_group_id ∧ e.dst_net = netField r ∧
      e.src_tag = none ∧ e.src_net = none ∧ e.dst_ports = portSpec r) := by
  unfold _neutron_rule_to_etcd_rule at h
  split at h
  · cases h
  · split at h
    · rename_i hd
      injection h with h
      subst h
      exact ⟨fun _ => ⟨rfl, rfl, rfl, rfl, rfl⟩, fun hn => absurd hd hn⟩
    · rename_i hd
      injection h with h
      subst h
      exact ⟨fun hn => absurd hn hd, fun _ => ⟨rfl, rfl, rfl, rfl, rfl⟩⟩

/-- A rule with a recognised ethertype always translates. -/
theorem translate_total (r : NeutronRule)
    (hip : r.ethertype = "IPv4" ∨ r.ethertype = "IPv6") :
    ∃ e, _neutron_rule_to_etcd_rule r = some e := by
  rw [← Option.isSome_iff_exists]
  unfold _neutron_rule_to_etcd_rule
  rcases hip with h | h <;> simp [ipVersionOf, h] <;>
    by_cases hd : r.direction = "ingress" <;> simp [hd]

/-- With a lookup that never succeeds, the loop makes exactly `r + 1`
attempts from `r + 1` remaining retries, sleeping between consecutive
attempts, and exhausts. -/
theorem retryLookup_none_exhausts {α : Type} (lookup : Nat → Option α)
    (h : ∀ k, lookup k = none) :
    ∀ (r a s : Nat), retryLookup lookup (r + 1) a s =
      RetryOutcome.exhausted (a + r + 1) (s + r) := by
  intro r
  induction r with
  | zero =>
    intro a s
    show (match lookup a with
          | some v => RetryOutcome.found v (a + 1) s
          | none => RetryOutcome.exhausted (a + 1) s) =
        RetryOutcome.exhausted (a + 0 + 1) (s + 0)
    rw [h a]
    rfl
  | succ n ih =>
    intro a s
    show (match lookup a with
          | some v => RetryOutcome.found v (a + 1) s
          | none => retryLookup lookup (n + 1) (a + 1) (s + 1)) =
        RetryOutcome.exhausted (a + (n + 1) + 1) (s + (n + 1))
    rw [h a]
    show retryLookup lookup (n + 1) (a + 1) (s + 1) =
      RetryOutcome.exhausted (a + (n + 1) + 1) (s + (n + 1))
    rw [ih (a + 1) (s + 1)]
    congr 1 <;> omega

/-- A lookup that succeeds at the current attempt returns immediately,
whatever the remaining retry budget. -/
theorem retryLookup_found_now {α : Type} (lookup : Nat → Option α)
    (r a s : Nat) (v : α) (h : lookup a = some v) :
    retryLookup lookup r a s = RetryOutcome.found v (a + 1) s := by
  match r with
  | 0 =>
    show (match lookup a with
          | some v => RetryOutcome.found v (a + 1) s
          | none => RetryOutcome.exhausted (a + 1) s) = _
    rw [h]
  | 1 =>
    show (match lookup a with
          | some v => RetryOutcome.found v (a + 1) s
          | none => RetryOutcome.exhausted (a + 1) s) = _
    rw [h]
  | n + 2 =>
    show (match lookup a with
          | some v => RetryOutcome.found v (a + 1) s
          | none => retryLookup lookup (n + 1) (a + 1) (s + 1)) = _
    rw [h]

/-- A lookup that first succeeds at the `k`-th attempt, `k` within the retry
budget, is found after `k + 1` attempts and `k` sleeps. -/
theorem retryLookup_found_at {α : Type} (lookup : Nat → Option α) :
    ∀ (k r a s : Nat) (v : α), k < r → lookup (a + k) = some v →
      (∀ j, j < k → lookup (a + j) = none) →
      retryLookup lookup r a s = RetryOutcome.found v (a + k + 1) (s + k) := by
  intro k
  induction k with
  | zero =>
    intro r a s v _ hv _
    have := retryLookup_found_now lookup r a s v (by simpa using hv)
    simpa using this
  | succ n ih =>
    intro r a s v hk hv hj
    match r, hk with
    | r2 + 2, _ =>
      have h0 : lookup a = none := by simpa using hj 0 (Nat.succ_pos n)
      show (match lookup a with
            | some v => RetryOutcome.found v (a + 1) s
            | none => retryLookup lookup (r2 + 1) (a + 1) (s + 1)) = _
      rw [h0]
      show retryLookup lookup (r2 + 1) (a + 1) (s + 1) = _
      rw [ih (r2 + 1) (a + 1) (s + 1) v (by omega)
        (by rw [← hv]; congr 1; omega)
        (fun j hjn => by
          rw [show a + 1 + j = a + (j + 1) from by omega]
          exact hj (j + 1) (by omega))]
      congr 1 <;> omega

/-- When the cache never holds `sgid` at any observation, the `profile_rules`
loop over any tag list containing `sgid` raises (it never returns a result). -/
theorem profileRulesLoop_error_of_never (sgsAt : Nat → SgCache) (sgid : PyStr)
    (hnever : ∀ t, cacheLookup (sgsAt t) sgid = none) :
    ∀ (tags : List PyStr) (step : Nat) (inb outb : List EtcdRule),
      sgid ∈ tags →
      ∃ e, profileRulesLoop sgsAt tags step inb outb = Except.error e := by
  intro tags
  induction tags with
  | nil => intro step inb outb hmem; cases hmem
  | cons t rest ih =>
    intro step inb outb hmem
    by_cases ht : t = sgid
    · subst ht
      have hlk : ∀ k, ((cacheLookup (sgsAt (step + k)) t).map
          (fun sg => sg.security_group_rules)) = none := by
        intro k
        rw [hnever (step + k)]
        rfl
      have hex := retryLookup_none_exhausts
        (fun k => (cacheLookup (sgsAt (step + k)) t).map
          (fun sg => sg.security_group_rules)) hlk 19 0 0
      norm_num at hex
      exact ⟨PyErr.keyError t, by simp [profileRulesLoop, hex]⟩
    · have hrest : sgid ∈ rest :=
        List.mem_of_ne_of_mem (fun hh => ht hh.symm) hmem
      cases hr : retryLookup
          (fun k => (cacheLookup (sgsAt (step + k)) t).map
            (fun sg => sg.security_group_rules)) 20 0 0 with
      | found rules attempts sleeps =>
        cases hroute : routeRules rules inb outb with
        | error e => exact ⟨e, by simp [profileRulesLoop, hr, hroute]⟩
        | ok pair =>
          obtain ⟨inb2, outb2⟩ := pair
          obtain ⟨e, he⟩ := ih (step + attempts) inb2 outb2 hrest
          exact ⟨e, by simp [profileRulesLoop, hr, hroute, he]⟩
      | exhausted attempts sleeps =>
        exact ⟨PyErr.keyError t, by simp [profileRulesLoop, hr]⟩

/-- Dict assignment: the assigned key now maps to the new value. -/
theorem cacheLookup_update_self (c : SgCache) (k : PyStr) (v : SecurityGroup) :
    cacheLookup (cacheUpdate c k v) k = some v := by
  simp [cacheUpdate, cacheLookup]

/-- Removing one key leaves lookups of every other key unchanged. -/
theorem cacheLookup_remove_other (k k' : PyStr) (h : k' ≠ k) :
    ∀ c : SgCache, cacheLookup (cacheRemove c k) k' = cacheLookup c k' := by
  intro c
  induction c with
  | nil => rfl
  | cons a cc ih =>
    by_cases ha : a.1 = k
    · rw [show cacheRemove (a :: cc) k = cacheRemove cc k from by
        simp [cacheRemove, ha]]
      rw [ih]
      show cacheLookup cc k' = if a.1 = k' then some a.2 else cacheLookup cc k'
      rw [if_neg (by rw [ha]; exact fun hh => h hh.symm)]
    · rw [show cacheRemove (a :: cc) k = a :: cacheRemove cc k from by
        simp [cacheRemove, ha]]
      show (if a.1 = k' then some a.2 else cacheLookup (cacheRemove cc k) k')
        = if a.1 = k' then some a.2 else cacheLookup cc k'
      by_cases hk' : a.1 = k'
      · rw [if_pos hk', if_pos hk']
      · rw [if_neg hk', if_neg hk', ih]

/-- Dict assignment: every other key is unchanged. -/
theorem cacheLookup_update_other (c : SgCache) (k k' : PyStr)
    (v : SecurityGroup) (h : k' ≠ k) :
    cacheLookup (cacheUpdate c k v) k' = cacheLookup c k' := by
  unfold cacheUpdate
  rw [show cacheLookup ((k, v) :: cacheRemove c k) k'
      = cacheLookup (cacheRemove c k) k' from by
    show (if k = k' then some v else cacheLookup (cacheRemove c k) k') = _
    rw [if_neg (fun hh => h hh.symm)]]
  exact cacheLookup_remove_other k k' h c

/-- When every listed profile builds against the cache, the write loop
succeeds and produces exactly one write per listed profile, in order, each
against that cache. -/
theorem writeProfiles_ok (sgs : SgCache) :
    ∀ l : List PyStr,
      (∀ pid ∈ l, ∃ doc, profile_rules (fun _ => sgs) pid = Except.ok doc) →
      ∃ ws, writeProfiles sgs l = Except.ok ws ∧
        ws.map (fun w => w.profile_id) = l ∧
        (∀ w ∈ ws,
          profile_rules (fun _ => sgs) w.profile_id = Except.ok w.rules ∧
          w.tags = profile_tags w.profile_id) := by
  intro l
  induction l with
  | nil => exact fun _ => ⟨[], rfl, rfl, by simp⟩
  | cons pid rest ih =>
    intro h
    obtain ⟨doc, hdoc⟩ := h pid (List.mem_cons_self pid rest)
    obtain ⟨ws, hws, hmap, hall⟩ :=
      ih (fun q hq => h q (List.mem_cons_of_mem pid hq))
    refine ⟨⟨pid, doc, profile_tags pid⟩ :: ws, ?_, ?_, ?_⟩
    · simp [writeProfiles, write_profile_to_etcd, hdoc, hws]
    · simp [hmap]
    · intro w hw
      rcases List.mem_cons.mp hw with hw | hw
      · subst hw; exact ⟨hdoc, rfl⟩
      · exact hall w hw

/-! ## The claims -/

/-- The C1 scenario: an ingress IPv4 rule with every optional field `None`. -/
def c1Rule : NeutronRule :=
  { direction := "ingress", ethertype := "IPv4", protocol := none,
    remote_group_id := none, remote_ip_pfx := none,
    port_range_min := none, port_range_max := none }

/-- C1: for an ingress rule with ethertype IPv4 and `None` protocol, remote
group, remote prefix and port bounds, `_neutron_rule_to_etcd_rule` returns
exactly `{ip_version: 4, src_net: "0.0.0.0/0"}` — every other field absent. -/
theorem c1_default_ipv4_ingress :
    _neutron_rule_to_etcd_rule c1Rule =
      some { ip_version := 4, src_net := some "0.0.0.0/0" } := by
  decide

/-- The C2 scenario: an ingress IPv6 ICMP rule with `port_range_min 3`,
`port_range_max 4` and no remote peer group or address prefix. -/
def c2Rule : NeutronRule :=
  { direction := "ingress", ethertype := "IPv6",
    protocol := some (ProtoVal.str "icmp"),
    remote_group_id := none, remote_ip_pfx := none,
    port_range_min := some 3, port_range_max := some 4 }

/-- C2 counterexample: on the claimed input the result is NOT exactly
`{ip_version: 6, protocol: "icmpv6", icmp_type: 3, icmp_code: 4}` — the code
also sets `src_net` (lines 284-287 substitute `'::/0'` when neither remote
selector is given, and line 316 stores it). -/
theorem c2_counterexample :
    _neutron_rule_to_etcd_rule c2Rule ≠
      some { ip_version := 6, protocol := some (ProtoVal.str "icmpv6"),
             icmp_type := some 3, icmp_code := some 4 } := by
  decide

/-- C2 amended: on that input the result is exactly `{ip_version: 6,
protocol: "icmpv6", icmp_type: 3, icmp_code: 4, src_net: "::/0"}`. -/
theorem c2_icmpv6_translation :
    _neutron_rule_to_etcd_rule c2Rule =
      some { ip_version := 6, protocol := some (ProtoVal.str "icmpv6"),
             icmp_type := some 3, icmp_code := some 4,
             src_net := some "::/0" } := by
  decide

/-- With both selectors supplied (prefix non-empty), line 285's guard is
falsy-free and `net` keeps the prefix. -/
theorem netField_both (r : NeutronRule) (p : String)
    (hp : r.remote_ip_pfx = some p) (hpne : p ≠ "") :
    netField r = some p := by
  simp [netField, truthy, hp, hpne]

/-- With neither selector supplied, `net` becomes the family-appropriate
any-address CIDR (lines 285-287). -/
theorem netField_neither (r : NeutronRule)
    (hg : r.remote_group_id = none) (hp : r.remote_ip_pfx = none) :
    netField r =
      some (if r.ethertype = "IPv4" then "0.0.0.0/0" else "::/0") := by
  simp [netField, truthy, hg, hp]

/-- The C3 counterexample input: an ingress rule carrying both a peer-group id
and an address prefix. -/
def c3Rule : NeutronRule :=
  { direction := "ingress", ethertype := "IPv4", protocol := none,
    remote_group_id := some "g", remote_ip_pfx := some "10.0.0.0/8",
    port_range_min := none, port_range_max := none }

/-- C3 counterexample: when both a peer-group id and an address prefix are
supplied, the translated ingress rule has BOTH `src_tag` and `src_net` set
(lines 313-316 assign them independently), contradicting "only one of the two
fields is set". -/
theorem c3_counterexample :
    ∃ e, _neutron_rule_to_etcd_rule c3Rule = some e ∧
      e.src_tag ≠ none ∧ e.src_net ≠ none :=
  ⟨{ ip_version := 4, src_tag := some "g", src_net := some "10.0.0.0/8" },
    by decide, by decide, by decide⟩

/-- C3 amended: on the direction-appropriate side, the tag field carries the
peer-group id exactly when one is supplied and the net field carries the
prefix; when both are supplied BOTH fields are set (no precedence), and when
neither is supplied the tag is unset and the net field holds the
family-appropriate any-address CIDR. -/
theorem c3_selector_fields (r : NeutronRule) (e : EtcdRule)
    (h : _neutron_rule_to_etcd_rule r = some e) :
    (r.direction = "ingress" →
      (∀ g p, r.remote_group_id = some g → r.remote_ip_pfx = some p →
        p ≠ "" → e.src_tag = some g ∧ e.src_net = some p) ∧
      (r.remote_group_id = none → r.remote_ip_pfx = none →
        e.src_tag = none ∧
        e.src_net =
          some (if r.ethertype = "IPv4" then "0.0.0.0/0" else "::/0"))) ∧
    (r.direction ≠ "ingress" →
      (∀ g p, r.remote_group_id = some g → r.remote_ip_pfx = some p →
        p ≠ "" → e.dst_tag = some g ∧ e.dst_net = some p) ∧
      (r.remote_group_id = none → r.remote_ip_pfx = none →
        e.dst_tag = none ∧
        e.dst_net =
          some (if r.ethertype = "IPv4" then "0.0.0.0/0" else "::/0"))) := by
  obtain ⟨hin, hout⟩ := translate_shape r e h
  constructor
  · intro hd
    obtain ⟨ht, hn, -, -, -⟩ := hin hd
    constructor
    · intro g p hg hp hpne
      exact ⟨ht.trans hg, hn.trans (netField_both r p hp hpne)⟩
    · intro hg hp
      exact ⟨ht.trans hg, hn.trans (netField_neither r hg hp)⟩
  · intro hd
    obtain ⟨ht, hn, -, -, -⟩ := hout hd
    constructor
    · intro g p hg hp hpne
      exact ⟨ht.trans hg, hn.trans (netField_both r p hp hpne)⟩
    · intro hg hp
      exact ⟨ht.trans hg, hn.trans (netField_neither r hg hp)⟩

/-- C3 witness: the amended statement applied at the concrete rule carrying
both selectors, yielding both fields set. -/
theorem c3_selector_fields_witness :
    ∃ e, _neutron_rule_to_etcd_rule c3Rule = some e ∧
      e.src_tag = some "g" ∧ e.src_net = some "10.0.0.0/8" := by
  obtain ⟨hin, -⟩ := c3_selector_fields c3Rule
    { ip_version := 4, src_tag := some "g", src_net := some "10.0.0.0/8" }
    (by decide)
  obtain ⟨hboth, -⟩ := hin (by decide)
  obtain ⟨h1, h2⟩ := hboth "g" "10.0.0.0/8" rfl rfl (by decide)
  exact ⟨_, by decide, h1, h2⟩

/-- Non-ICMP, lower bound `-1`: the full range (lines 301-302). -/
theorem portSpec_any (r : NeutronRule)
    (hpr : r.protocol ≠ some (ProtoVal.str "icmp"))
    (h : r.port_range_min = some (-1)) :
    portSpec r = some [PortEntry.str "1:65535"] := by
  simp [portSpec, hpr, h]

/-- Non-ICMP, equal present bounds: a single-element list (lines 303-305). -/
theorem portSpec_single (r : NeutronRule)
    (hpr : r.protocol ≠ some (ProtoVal.str "icmp")) (n : Int) (hn : n ≠ -1)
    (hmin : r.port_range_min = some n) (hmax : r.port_range_max = some n) :
    portSpec r = some [PortEntry.num n] := by
  simp [portSpec, hpr, hmin, hmax, hn]

/-- Non-ICMP, both bounds absent: no ports key (lines 303-305, inner guard). -/
theorem portSpec_absent (r : NeutronRule)
    (hpr : r.protocol ≠ some (ProtoVal.str "icmp"))
    (hmin : r.port_range_min = none) (hmax : r.port_range_max = none) :
    portSpec r = none := by
  simp [portSpec, hpr, hmin, hmax]

/-- Non-ICMP, any other combination: the `'lo:hi'` range string
(lines 306-308). -/
theorem portSpec_range (r : NeutronRule)
    (hpr : r.protocol ≠ some (ProtoVal.str "icmp"))
    (h1 : r.port_range_min ≠ some (-1))
    (h2 : r.port_range_min ≠ r.port_range_max) :
    portSpec r = some [PortEntry.str
      (pyFormatOptInt r.port_range_min ++ ":" ++
        pyFormatOptInt r.port_range_max)] := by
  simp [portSpec, hpr, h1, h2]

/-- C6: for every non-ICMP rule with a recognised ethertype, the translation
resolves ports exactly as claimed — `-1` lower bound gives `["1:65535"]`,
equal present bounds give `[lower]`, both bounds absent omit the field, any
other combination gives the single `"lo:hi"` string — and the result always
lands in `dst_ports` whatever the rule's direction. -/
theorem c6_port_resolution (r : NeutronRule)
    (hip : r.ethertype = "IPv4" ∨ r.ethertype = "IPv6")
    (hpr : r.protocol ≠ some (ProtoVal.str "icmp")) :
    ∃ e, _neutron_rule_to_etcd_rule r = some e ∧
      (r.port_range_min = some (-1) →
        e.dst_ports = some [PortEntry.str "1:65535"]) ∧
      (∀ n : Int, n ≠ -1 → r.port_range_min = some n →
        r.port_range_max = some n →
        e.dst_ports = some [PortEntry.num n]) ∧
      (r.port_range_min = none → r.port_range_max = none →
        e.dst_ports = none) ∧
      (r.port_range_min ≠ some (-1) → r.port_range_min ≠ r.port_range_max →
        e.dst_ports = some [PortEntry.str
          (pyFormatOptInt r.port_range_min ++ ":" ++
            pyFormatOptInt r.port_range_max)]) ∧
      (∀ d : String, ∃ e2,
        _neutron_rule_to_etcd_rule { r with direction := d } = some e2 ∧
        e2.dst_ports = e.dst_ports) := by
  obtain ⟨e, he⟩ := translate_total r hip
  have hdp : e.dst_ports = portSpec r := by
    obtain ⟨hin, hout⟩ := translate_shape r e he
    by_cases hd : r.direction = "ingress"
    · exact (hin hd).2.2.2.2
    · exact (hout hd).2.2.2.2
  refine ⟨e, he, ?_, ?_, ?_, ?_, ?_⟩
  · intro h; rw [hdp]; exact portSpec_any r hpr h
  · intro n hn hmin hmax; rw [hdp]; exact portSpec_single r hpr n hn hmin hmax
  · intro hmin hmax; rw [hdp]; exact portSpec_absent r hpr hmin hmax
  · intro h1 h2; rw [hdp]; exact portSpec_range r hpr h1 h2
  · intro d
    obtain ⟨e2, he2⟩ := translate_total { r with direction := d } hip
    have hdp2 : e2.dst_ports = portSpec { r with direction := d } := by
      obtain ⟨hin, hout⟩ := translate_shape _ e2 he2
      by_cases hd : ({ r with direction := d } : NeutronRule).direction = "ingress"
      · exact (hin hd).2.2.2.2
      · exact (hout hd).2.2.2.2
    exact ⟨e2, he2, by rw [hdp2, hdp]; rfl⟩

/-- The C6 witness input: a non-ICMP egress rule whose lower bound is the
`-1` sentinel. -/
def c6Rule : NeutronRule :=
  { direction := "egress", ethertype := "IPv4",
    protocol := some (ProtoVal.str "tcp"),
    remote_group_id := none, remote_ip_pfx := none,
    port_range_min := some (-1), port_range_max := some 80 }

/-- C6 witness: the port-resolution statement applied at `c6Rule`. -/
theorem c6_port_resolution_witness :
    ∃ e, _neutron_rule_to_etcd_rule c6Rule = some e ∧
      (c6Rule.port_range_min = some (-1) →
        e.dst_ports = some [PortEntry.str "1:65535"]) ∧
      (∀ n : Int, n ≠ -1 → c6Rule.port_range_min = some n →
        c6Rule.port_range_max = some n →
        e.dst_ports = some [PortEntry.num n]) ∧
      (c6Rule.port_range_min = none → c6Rule.port_range_max = none →
        e.dst_ports = none) ∧
      (c6Rule.port_range_min ≠ some (-1) →
        c6Rule.port_range_min ≠ c6Rule.port_range_max →
        e.dst_ports = some [PortEntry.str
          (pyFormatOptInt c6Rule.port_range_min ++ ":" ++
            pyFormatOptInt c6Rule.port_range_max)]) ∧
      (∀ d : String, ∃ e2,
        _neutron_rule_to_etcd_rule { c6Rule with direction := d } = some e2 ∧
        e2.dst_ports = e.dst_ports) :=
  c6_port_resolution c6Rule (Or.inl rfl) (by decide)

/-- C5 counterexample: a port with the single security group id `"a_b"` —
whose id contains the join separator — does not round-trip:
`profile_tags (port_profile_id ["a_b"])` is `["a", "b"]`, not `["a_b"]`. -/
theorem c5_counterexample :
    profile_tags (port_profile_id [['a', '_', 'b']]) ≠ [['a', '_', 'b']] := by
  decide

/-- C5 amended: `profile_tags` recovers the ordered security-group id list
from `port_profile_id` whenever the list is non-empty and no id contains the
`'_'` separator (the code guarantees neither; the empty list joins to `''`,
which splits to `['']`, and a separator inside an id splits it apart). -/
theorem c5_roundtrip (sgs : List PyStr) (hne : sgs ≠ [])
    (hsep : ∀ s ∈ sgs, '_' ∉ s) :
    profile_tags (port_profile_id sgs) = sgs :=
  List.splitOn_intercalate sgs '_' hsep hne

/-- C5 witness: the round trip at the concrete group list `["a", "b"]`. -/
theorem c5_roundtrip_witness :
    profile_tags (port_profile_id [['a'], ['b']]) = [['a'], ['b']] :=
  c5_roundtrip [['a'], ['b']] (by decide) (by decide)

/-- C4: when a constituent security group is absent from the cache and never
appears, `profile_rules` raises to the caller (it never returns a rule set):
the retry loop makes exactly 20 lookup attempts with a sleep — the 200ms
`eventlet.sleep(0.2)` — between consecutive attempts (19 sleeps) and then
exhausts; and any lookup that first succeeds at attempt `k < 20` makes the
loop return the cached value after `k + 1` attempts. -/
theorem c4_retry_policy (sgsAt : Nat → SgCache) (pid sgid : PyStr)
    (hmem : sgid ∈ profile_tags pid)
    (hnever : ∀ t, cacheLookup (sgsAt t) sgid = none) :
    (∃ e, profile_rules sgsAt pid = Except.error e) ∧
    retryLookup (fun k => (cacheLookup (sgsAt k) sgid).map
        (fun sg => sg.security_group_rules)) 20 0 0 =
      RetryOutcome.exhausted 20 19 ∧
    RETRY_SLEEP_MS = 200 ∧
    (∀ (lookup2 : Nat → Option (List NeutronRule)) (k : Nat)
        (v : List NeutronRule), k < 20 → lookup2 k = some v →
        (∀ j, j < k → lookup2 j = none) →
        retryLookup lookup2 20 0 0 = RetryOutcome.found v (k + 1) k) := by
  refine ⟨?_, ?_, rfl, ?_⟩
  · obtain ⟨e, he⟩ :=
      profileRulesLoop_error_of_never sgsAt sgid hnever (profile_tags pid)
        0 [] [] hmem
    exact ⟨e, by simp [profile_rules, he]⟩
  · have hlk : ∀ k, ((cacheLookup (sgsAt k) sgid).map
        (fun sg => sg.security_group_rules)) = none := by
      intro k
      rw [hnever k]
      rfl
    have hex := retryLookup_none_exhausts
      (fun k => (cacheLookup (sgsAt k) sgid).map
        (fun sg => sg.security_group_rules)) hlk 19 0 0
    norm_num at hex
    exact hex
  · intro lookup2 k v hk hv hj
    have := retryLookup_found_at lookup2 k 20 0 0 v hk (by simpa using hv)
      (fun j hjk => by simpa using hj j hjk)
    simpa using this

/-- C4 witness: the retry policy applied to a cache that is empty forever and
the one-tag profile `"a"`. -/
theorem c4_retry_policy_witness :
    (∃ e, profile_rules (fun _ => ([] : SgCache)) ['a'] = Except.error e) ∧
    retryLookup (fun _ => (cacheLookup ([] : SgCache) ['a']).map
        (fun sg => sg.security_group_rules)) 20 0 0 =
      RetryOutcome.exhausted 20 19 ∧
    RETRY_SLEEP_MS = 200 ∧
    (∀ (lookup2 : Nat → Option (List NeutronRule)) (k : Nat)
        (v : List NeutronRule), k < 20 → lookup2 k = some v →
        (∀ j, j < k → lookup2 j = none) →
        retryLookup lookup2 20 0 0 = RetryOutcome.found v (k + 1) k) :=
  c4_retry_policy (fun _ => []) ['a'] ['a'] (by decide) (fun _ => rfl)

/-- C7: `security_group_updated` replaces the cached entry for the group's id
wholesale (leaving every other key alone) and then rewrites exactly the
currently-needed profiles whose underscore-split tags contain the id — one
rewrite per such profile, each built against the newly cached rule set — and
rewrites nothing whose tags do not contain it. -/
theorem c7_security_group_fanout (self : CalicoTransportEtcd)
    (sg : SecurityGroup) (sgs : SgCache) (needed : List PyStr)
    (hsem : self.sgs_semaphore = some ())
    (hpsem : self.profile_semaphore = some ())
    (hsgs : self.sgs = some sgs)
    (hneed : self.needed_profiles = some needed)
    (hnodup : needed.Nodup)
    (hbuild : ∀ pid ∈ needed, sg.id ∈ profile_tags pid →
      ∃ doc, profile_rules (fun _ => cacheUpdate sgs sg.id sg) pid =
        Except.ok doc) :
    ∃ (self2 : CalicoTransportEtcd) (writes : List ProfileWrite),
      self.security_group_updated_m sg = Except.ok (self2, writes) ∧
      self2.sgs = some (cacheUpdate sgs sg.id sg) ∧
      cacheLookup (cacheUpdate sgs sg.id sg) sg.id = some sg ∧
      (∀ k, k ≠ sg.id →
        cacheLookup (cacheUpdate sgs sg.id sg) k = cacheLookup sgs k) ∧
      writes.map (fun w => w.profile_id) =
        needed.filter (fun pid => sg.id ∈ profile_tags pid) ∧
      (writes.map (fun w => w.profile_id)).Nodup ∧
      (∀ w ∈ writes,
        profile_rules (fun _ => cacheUpdate sgs sg.id sg) w.profile_id =
          Except.ok w.rules ∧
        w.tags = profile_tags w.profile_id) ∧
      (∀ pid ∈ needed, sg.id ∉ profile_tags pid →
        ∀ w ∈ writes, w.profile_id ≠ pid) := by
  have hfilter : ∀ pid ∈ needed.filter (fun pid => sg.id ∈ profile_tags pid),
      ∃ doc, profile_rules (fun _ => cacheUpdate sgs sg.id sg) pid =
        Except.ok doc := by
    intro pid hp
    rw [List.mem_filter] at hp
    exact hbuild pid hp.1 (by simpa using hp.2)
  obtain ⟨ws, hws, hmap, hall⟩ :=
    writeProfiles_ok (cacheUpdate sgs sg.id sg) _ hfilter
  refine ⟨{ self with sgs := some (cacheUpdate sgs sg.id sg) }, ws, ?_, rfl,
    cacheLookup_update_self sgs sg.id sg,
    (fun k hk => cacheLookup_update_other sgs sg.id k sg hk), hmap, ?_,
    hall, ?_⟩
  · unfold CalicoTransportEtcd.security_group_updated_m
    rw [hsem, hsgs, hpsem, hneed]
    simp [getAttr, hws]
  · rw [hmap]
    exact hnodup.filter _
  · intro pid hpid2 hnot w hw heq
    have hmem2 : w.profile_id ∈ ws.map (fun w => w.profile_id) :=
      List.mem_map_of_mem _ hw
    rw [hmap, heq] at hmem2
    rw [List.mem_filter] at hmem2
    exact hnot (by simpa using hmem2.2)

/-- The C7 witness instance: every attribute present, an empty cache, and one
needed profile `"g"`. -/
def c7Self : CalicoTransportEtcd :=
  { driver := some (), client := some (), sgs := some [],
    sgs_semaphore := some (), needed_profiles := some [['g']],
    profile_semaphore := some () }

/-- The C7 witness security group, id `"g"` with no rules. -/
def c7Sg : SecurityGroup := ⟨['g'], []⟩

/-- C7 witness: the fan-out applied at the concrete instance, group and
needed-profile set. -/
theorem c7_security_group_fanout_witness :
    ∃ (self2 : CalicoTransportEtcd) (writes : List ProfileWrite),
      c7Self.security_group_updated_m c7Sg = Except.ok (self2, writes) ∧
      self2.sgs = some (cacheUpdate [] c7Sg.id c7Sg) ∧
      cacheLookup (cacheUpdate [] c7Sg.id c7Sg) c7Sg.id = some c7Sg ∧
      (∀ k, k ≠ c7Sg.id →
        cacheLookup (cacheUpdate [] c7Sg.id c7Sg) k = cacheLookup [] k) ∧
      writes.map (fun w => w.profile_id) =
        [['g']].filter (fun pid => c7Sg.id ∈ profile_tags pid) ∧
      (writes.map (fun w => w.profile_id)).Nodup ∧
      (∀ w ∈ writes,
        profile_rules (fun _ => cacheUpdate [] c7Sg.id c7Sg) w.profile_id =
          Except.ok w.rules ∧
        w.tags = profile_tags w.profile_id) ∧
      (∀ pid ∈ [(['g'] : PyStr)], c7Sg.id ∉ profile_tags pid →
        ∀ w ∈ writes, w.profile_id ≠ pid) :=
  c7_security_group_fanout c7Self c7Sg [] [['g']] rfl rfl rfl rfl (by decide)
    (fun pid hm _ => by
      have hp : pid = ['g'] := by simpa using hm
      subst hp
      exact ⟨⟨[], []⟩, rfl⟩)

/-- C8: `endpoint_deleted` issues exactly one delete, for the endpoint's own
document key; it issues no writes; when the key is already absent it returns
normally with the store untouched (the `EtcdKeyNotFound` of lines 211-213 is
swallowed); and the endpoint key is never a profile rules or tags key, so no
profile document can be touched. -/
theorem c8_endpoint_deleted_spec (store : EtcdStore) (port : Port) :
    (endpoint_deleted store port).deletesIssued = [port_etcd_key port] ∧
    (endpoint_deleted store port).writesIssued = [] ∧
    (port_etcd_key port ∉ store.keys →
      endpoint_deleted store port = ⟨store, [port_etcd_key port], []⟩) ∧
    (∀ pid : PyStr, port_etcd_key port ≠ key_for_profile_rules pid ∧
      port_etcd_key port ≠ key_for_profile_tags pid) := by
  refine ⟨?_, ?_, ?_, ?_⟩
  · cases h : clientDelete store (port_etcd_key port) with
    | ok s2 => simp [endpoint_deleted, h]
    | error u => simp [endpoint_deleted, h]
  · cases h : clientDelete store (port_etcd_key port) with
    | ok s2 => simp [endpoint_deleted, h]
    | error u => simp [endpoint_deleted, h]
  · intro habs
    have h : clientDelete store (port_etcd_key port) = Except.error () := by
      simp [clientDelete, habs]
    simp [endpoint_deleted, h]
  · intro pid
    constructor
    · intro h
      have := congrArg List.length h
      simp [port_etcd_key, key_for_endpoint, key_for_profile_rules] at this
    · intro h
      have := congrArg List.length h
      simp [port_etcd_key, key_for_endpoint, key_for_profile_tags] at this

/-- C9: `port_etcd_data` is deterministic (equal ports yield equal documents),
and when the stored `InterfacePrefix` is already `'tap'` and the readiness key
already `'true'`, `provide_felix_config` performs zero writes. -/
theorem c9_deterministic_and_config_idempotent (store : EtcdKey → Option String)
    (hpfx : store (key_for_config "InterfacePrefix") = some "tap")
    (hready : store READY_KEY = some "true") :
    (∀ p q : Port, p = q → port_etcd_data p = port_etcd_data q) ∧
    provide_felix_config store = [] := by
  refine ⟨fun p q h => by rw [h], ?_⟩
  unfold provide_felix_config
  simp [hpfx, hready]

/-- The C9 witness store: `InterfacePrefix` already `'tap'`, readiness already
`'true'`. -/
def c9Store : EtcdKey → Option String := fun k =>
  if k = key_for_config "InterfacePrefix" then some "tap"
  else if k = READY_KEY then some "true" else none

/-- C9 witness: zero writes against the already-correct concrete store. -/
theorem c9_config_idempotent_witness :
    (∀ p q : Port, p = q → port_etcd_data p = port_etcd_data q) ∧
    provide_felix_config c9Store = [] :=
  c9_deterministic_and_config_idempotent c9Store (by decide) (by decide)

/-- C10: `__init__` leaves `sgs`, `_sgs_semaphore`, `needed_profiles` and
`profile_semaphore` unset (no method ever assigns them), so on a fresh
instance the first `security_group_updated`, and the first `profile_rules`
for a non-empty profile, raise `AttributeError` at the line 156/217
`with self._sgs_semaphore` instead of acting on an empty cache. -/
theorem c10_missing_attributes (sg : SecurityGroup) (pid : PyStr)
    (hpid : pid ≠ []) :
    CalicoTransportEtcd.init.sgs = none ∧
    CalicoTransportEtcd.init.sgs_semaphore = none ∧
    CalicoTransportEtcd.init.needed_profiles = none ∧
    CalicoTransportEtcd.init.profile_semaphore = none ∧
    CalicoTransportEtcd.init.security_group_updated_m sg =
      Except.error (PyErr.attributeError "_sgs_semaphore") ∧
    CalicoTransportEtcd.init.profile_rules_m pid =
      Except.error (PyErr.attributeError "_sgs_semaphore") := by
  refine ⟨rfl, rfl, rfl, rfl, rfl, ?_⟩
  have hne : profile_tags pid ≠ [] := by
    unfold profile_tags List.splitOn
    exact List.splitOnP_ne_nil _ pid
  have hemp : (profile_tags pid).isEmpty = false := by
    cases h : profile_tags pid with
    | nil => exact absurd h hne
    | cons a l => rfl
  simp [CalicoTransportEtcd.profile_rules_m, hemp, CalicoTransportEtcd.init,
    getAttr]

/-- The C10 witness group. -/
def c10Sg : SecurityGroup := ⟨['g'], []⟩

/-- C10 witness: the fresh-instance failures at a concrete group and
profile. -/
theorem c10_missing_attributes_witness :
    CalicoTransportEtcd.init.sgs = none ∧
    CalicoTransportEtcd.init.sgs_semaphore = none ∧
    CalicoTransportEtcd.init.needed_profiles = none ∧
    CalicoTransportEtcd.init.profile_semaphore = none ∧
    CalicoTransportEtcd.init.security_group_updated_m c10Sg =
      Except.error (PyErr.attributeError "_sgs_semaphore") ∧
    CalicoTransportEtcd.init.profile_rules_m ['p'] =
      Except.error (PyErr.attributeError "_sgs_semaphore") :=
  c10_missing_attributes c10Sg ['p'] (by decide)

end Felix
